import Mathlib

/-!
Shallow embedding of `src/contracts/src/api/proofs/ZKExactGeoPointCircuitProof.ts`
(zkLocus proof composition and verification layer).

The source file defines the class `ZKExactGeoPointCircuitProof`, a wrapper that
binds an opaque zero-knowledge proof handle (`ExactGeoPointCircuitProof`) to a
claimed semantic value (`ZKGeoPoint`).  Collaborator classes that live in the
repository but outside the provided sources (`ZKLocusProof`,
`CachingProofVerificationMiddleware`, `ZKGeoPoint`, the circuit classes) are
modelled from the specification, each marked `Modelled from the spec:`.

Fallible methods are embedded as functions returning `Except VerificationError`,
mutable per-instance state (the verification cache entry installed by the
caching middleware decorator) is threaded explicitly, and calls to the external
cryptographic engine are recorded in an explicit event trace so that claims
about call order and about checks being skipped become statements about traces.
-/

/-- Field elements of the external engine, embedded as natural numbers. -/
abbrev FieldVal := Nat

/-- Errors of the verification layer (spec §7 taxonomy). -/
inductive VerificationError where
  | cryptographicVerificationFailure
  | claimMismatch
deriving DecidableEq, Repr

/-- JavaScript runtime values, as far as the truthiness semantics of the
source's `if(!...)` guard needs them.  An o1js `Bool` is an object wrapping a
circuit boolean; the wrapped boolean is the payload. -/
inductive JSValue where
  | object (payload : Bool)
  | boolean (b : Bool)
  | numberv (n : Int)
  | nullv
  | undefinedv
deriving DecidableEq, Repr

/-- JavaScript truthiness: every object is truthy regardless of its payload;
primitive booleans are their own truth value; numbers are truthy when nonzero;
`null` and `undefined` are falsy. -/
def jsTruthy : JSValue → Bool
  | JSValue.object _ => true
  | JSValue.boolean b => b
  | JSValue.numberv n => decide (n ≠ 0)
  | JSValue.nullv => false
  | JSValue.undefinedv => false

/-- JavaScript logical negation `!v`: the boolean negation of truthiness. -/
def jsNot (v : JSValue) : Bool := ! jsTruthy v

namespace Field

/-- o1js `Field.equals`: compares two field elements and returns a circuit
`Bool`, which at the JavaScript level is an object (not a primitive boolean). -/
def equals (x y : FieldVal) : JSValue := JSValue.object (x == y)

end Field

/-- Public output of the exact-geopoint circuit: a commitment to a geographic
point (`GeoPointCommitment` from `model/public/Commitment`). -/
structure GeoPointCommitment where
  geoPointHash : FieldVal
deriving DecidableEq, Repr

/-- Opaque proof handle produced by the external engine for the
`ExactGeoPointCircuit`.  `cryptoValid` models whether the external engine's
cryptographic verification accepts this handle (spec §6: `verify(opaqueProof)`
is a soundness check owned by the engine). -/
structure ExactGeoPointCircuitProof where
  publicOutput : GeoPointCommitment
  cryptoValid : Bool
deriving DecidableEq, Repr

/-- Opaque proof handle of the geopoint provider circuit
(`GeoPointProviderCircuitProof` from `zkprogram/private/Geography`), carrying
its own commitment and engine acceptance flag. -/
structure GeoPointProviderCircuitProof where
  geoPointHash : FieldVal
  cryptoValid : Bool
deriving DecidableEq, Repr

/-- Modelled from the spec: `ZKGeoPoint` (repo code outside src/), the semantic
geographic value being proven about, with latitude and longitude. -/
structure ZKGeoPoint where
  latitude : Int
  longitude : Int
deriving DecidableEq, Repr

/-- Encode an integer injectively as a natural number (for the hash model). -/
def encodeInt (i : Int) : Nat := if 0 ≤ i then 2 * i.toNat else 2 * (-i).toNat - 1

/-- Cantor pairing of two naturals (for the hash model). -/
def pairNat (a b : Nat) : Nat := (a + b) * (a + b + 1) / 2 + b

/-- Modelled from the spec: `ZKGeoPoint.hash()` (repo code outside src/), the
deterministic in-circuit commitment scheme recomputed out of circuit; embedded
as a concrete deterministic digest of latitude and longitude. -/
def ZKGeoPoint.hash (p : ZKGeoPoint) : FieldVal :=
  pairNat (encodeInt p.latitude) (encodeInt p.longitude)

/-- Calls made to the external cryptographic engine or to the claim binder
during one `verify()` run, in order. -/
inductive VerifyEvent where
  | cryptoCheck
  | claimCheck
deriving DecidableEq, Repr

/-- Steps of a derivation run, in order. -/
inductive DerivEvent where
  | sourceVerify
  | externalTransform
deriving DecidableEq, Repr

/-- Modelled from the spec: `ZKLocusProof.verify` (repo base class outside
src/), which delegates to the opaque handle's cryptographic verification and
fails with `CryptographicVerificationFailure` when the engine rejects the proof
(spec §4.1, §7). -/
def superVerify (p : ExactGeoPointCircuitProof) : Except VerificationError Unit :=
  if p.cryptoValid then Except.ok () else Except.error VerificationError.cryptographicVerificationFailure

/-- Instance state of a `ZKExactGeoPointCircuitProof` object: the two fields
assigned in the constructor, plus `verificationCached`, the per-instance memo
entry installed by `CachingProofVerificationMiddleware` (modelled from the
spec, §4.4: success is memoized per instance, failures never are). -/
structure ZKExactGeoPointCircuitProof where
  claimedZKGeoPoint : ZKGeoPoint
  proof : ExactGeoPointCircuitProof
  verificationCached : Bool
deriving DecidableEq, Repr

namespace ZKExactGeoPointCircuitProof

/-- The constructor: stores the claimed point and the proof handle; a fresh
instance has no cached verification. -/
def mkNew (zkGeoPoint : ZKGeoPoint) (proof : ExactGeoPointCircuitProof) :
    ZKExactGeoPointCircuitProof :=
  { claimedZKGeoPoint := zkGeoPoint, proof := proof, verificationCached := false }

/-- `assertGeoPointIsTheClaimedOne` from the source, with JavaScript semantics
for the guard: `geoPointCommitment.geoPointHash.equals(claimed)` returns a
`Bool` object and the source negates it with the JavaScript `!` operator.  The
`console.log` diagnostics in the error branch are pure output and are omitted. -/
def assertGeoPointIsTheClaimedOne (w : ZKExactGeoPointCircuitProof) :
    Except VerificationError Unit :=
  let geoPointCommitment : GeoPointCommitment := w.proof.publicOutput
  let claimedGeoPointCommitment : FieldVal := w.claimedZKGeoPoint.hash
  if jsNot (Field.equals geoPointCommitment.geoPointHash claimedGeoPointCommitment) then
    Except.error VerificationError.claimMismatch
  else
    Except.ok ()

/-- The undecorated `verify()` body from the source: `super.verify()` first,
then `assertGeoPointIsTheClaimedOne()`.  Returns the outcome together with the
trace of checks performed. -/
def verifyUncached (w : ZKExactGeoPointCircuitProof) :
    Except VerificationError Unit × List VerifyEvent :=
  match superVerify w.proof with
  | Except.error e => (Except.error e, [VerifyEvent.cryptoCheck])
  | Except.ok _ =>
    match w.assertGeoPointIsTheClaimedOne with
    | Except.error e => (Except.error e, [VerifyEvent.cryptoCheck, VerifyEvent.claimCheck])
    | Except.ok _ => (Except.ok (), [VerifyEvent.cryptoCheck, VerifyEvent.claimCheck])

/-- `verify()` as decorated by `CachingProofVerificationMiddleware` (modelled
from the spec, §4.4): a prior successful verification of this instance returns
immediately with no external calls; otherwise the full chain runs and only
success is memoized.  Returns outcome, updated instance state, and trace. -/
def verify (w : ZKExactGeoPointCircuitProof) :
    Except VerificationError Unit × ZKExactGeoPointCircuitProof × List VerifyEvent :=
  if w.verificationCached then (Except.ok (), w, [])
  else
    match w.verifyUncached with
    | (Except.ok _, tr) => (Except.ok (), { w with verificationCached := true }, tr)
    | (Except.error e, tr) => (Except.error e, w, tr)

/-- The `zkGeoPoint` getter from the source: calls `this.verify()` and then
returns `this.claimedZKGeoPoint`; a verification failure propagates to the
caller. -/
def zkGeoPoint (w : ZKExactGeoPointCircuitProof) :
    Except VerificationError ZKGeoPoint × ZKExactGeoPointCircuitProof × List VerifyEvent :=
  match w.verify with
  | (Except.ok _, w2, tr) => (Except.ok w2.claimedZKGeoPoint, w2, tr)
  | (Except.error e, w2, tr) => (Except.error e, w2, tr)

end ZKExactGeoPointCircuitProof

/-- Modelled from the spec: the source wrapper kind
`ZKGeoPointProviderCircuitProof` (repo code outside src/), a `ProofWrapper`
per §3/§4.1 with a claimed point, an opaque provider-circuit handle exposed as
`zkProof`, and its own per-instance verification cache entry. -/
structure ZKGeoPointProviderCircuitProof where
  zkGeoPoint : ZKGeoPoint
  zkProof : GeoPointProviderCircuitProof
  verificationCached : Bool
deriving DecidableEq, Repr

namespace ZKGeoPointProviderCircuitProof

/-- Modelled from the spec: `verify()` of the provider wrapper (repo code
outside src/), per §4.1/§4.4: cached success returns immediately; otherwise the
engine's cryptographic check runs first, then claim binding by exact equality
of the recomputed commitment with the embedded one; only success is memoized. -/
def verify (s : ZKGeoPointProviderCircuitProof) :
    Except VerificationError Unit × ZKGeoPointProviderCircuitProof :=
  if s.verificationCached then (Except.ok (), s)
  else if s.zkProof.cryptoValid = false then
    (Except.error VerificationError.cryptographicVerificationFailure, s)
  else if s.zkProof.geoPointHash = s.zkGeoPoint.hash then
    (Except.ok (), { s with verificationCached := true })
  else (Except.error VerificationError.claimMismatch, s)

end ZKGeoPointProviderCircuitProof

/-- Modelled from the spec: `ExactGeoPointCircuit.fromGeoPointProvider` (repo
circuit code outside src/), the external engine's asynchronous circuit-specific
transformation (spec §6 `transform`): consumes a provider-circuit handle and
produces an exact-geopoint handle attesting the same commitment. -/
def ExactGeoPointCircuit.fromGeoPointProvider (p : GeoPointProviderCircuitProof) :
    ExactGeoPointCircuitProof :=
  { publicOutput := { geoPointHash := p.geoPointHash }, cryptoValid := p.cryptoValid }

namespace ZKExactGeoPointCircuitProof

/-- The static factory `fromZKGeoPointProviderProof` from the source:
`proof.verify()` on the source wrapper first (a failure aborts the whole
derivation), then the external transformation on the source's underlying
handle, then construction of the new wrapper.  Returns the outcome and the
trace of derivation steps performed. -/
def fromZKGeoPointProviderProof (source : ZKGeoPointProviderCircuitProof) :
    Except VerificationError ZKExactGeoPointCircuitProof × List DerivEvent :=
  match source.verify with
  | (Except.error e, _) => (Except.error e, [DerivEvent.sourceVerify])
  | (Except.ok _, s2) =>
    let exactGeoPointProof : ExactGeoPointCircuitProof :=
      ExactGeoPointCircuit.fromGeoPointProvider s2.zkProof
    (Except.ok (mkNew s2.zkGeoPoint exactGeoPointProof),
      [DerivEvent.sourceVerify, DerivEvent.externalTransform])

end ZKExactGeoPointCircuitProof

/-- Serialized form of an exact-geopoint proof (o1js `JsonProof`), carrying
enough to reconstruct the handle. -/
structure JsonProof where
  publicOutputHash : FieldVal
  cryptoValid : Bool
deriving DecidableEq, Repr

/-- Modelled from the spec: `ExactGeoPointCircuitProof.fromJSON` (repo circuit
code outside src/), the engine's deserializer (spec §4.1/§6): reconstructs an
opaque handle from its serialized form and performs no verification; the trace
of verification events it emits is recorded alongside the handle. -/
def ExactGeoPointCircuitProof.fromJSON (j : JsonProof) :
    ExactGeoPointCircuitProof × List VerifyEvent :=
  ({ publicOutput := { geoPointHash := j.publicOutputHash }, cryptoValid := j.cryptoValid }, [])

/-- The static `fromJSON` from the source: delegates to
`ExactGeoPointCircuitProof.fromJSON` and returns its result unchanged. -/
def ZKExactGeoPointCircuitProof.fromJSON (j : JsonProof) :
    ExactGeoPointCircuitProof × List VerifyEvent :=
  ExactGeoPointCircuitProof.fromJSON j

/-! ## Concrete instances used as witnesses -/

/-- A wrapper whose claimed point (40, -74) hashes to the commitment embedded
in its proof, and whose proof the external engine accepts. -/
def goodWrapper : ZKExactGeoPointCircuitProof :=
  ZKExactGeoPointCircuitProof.mkNew
    { latitude := 40, longitude := -74 }
    { publicOutput := { geoPointHash := 26025 }, cryptoValid := true }

/-- A wrapper whose embedded commitment 999 differs from the hash of its
claimed point (40, -74), while the engine accepts the proof itself. -/
def badWrapper : ZKExactGeoPointCircuitProof :=
  ZKExactGeoPointCircuitProof.mkNew
    { latitude := 40, longitude := -74 }
    { publicOutput := { geoPointHash := 999 }, cryptoValid := true }

/-- A provider-circuit source wrapper that verifies successfully. -/
def goodSource : ZKGeoPointProviderCircuitProof :=
  { zkGeoPoint := { latitude := 40, longitude := -74 },
    zkProof := { geoPointHash := 26025, cryptoValid := true },
    verificationCached := false }

/-- A provider-circuit source wrapper whose proof the engine rejects. -/
def badSource : ZKGeoPointProviderCircuitProof :=
  { zkGeoPoint := { latitude := 40, longitude := -74 },
    zkProof := { geoPointHash := 26025, cryptoValid := false },
    verificationCached := false }

/-- The wrapper a successful derivation from `goodSource` produces. -/
def derivedWrapper : ZKExactGeoPointCircuitProof :=
  ZKExactGeoPointCircuitProof.mkNew
    { latitude := 40, longitude := -74 }
    { publicOutput := { geoPointHash := 26025 }, cryptoValid := true }

/-! ## Helper lemmas -/

/-- The claim-binding guard never fires: `Field.equals` yields an object and
objects are truthy, so the JavaScript negation is constantly `false`. -/
theorem assert_ok_lemma (w : ZKExactGeoPointCircuitProof) :
    w.assertGeoPointIsTheClaimedOne = Except.ok () := by
  unfold ZKExactGeoPointCircuitProof.assertGeoPointIsTheClaimedOne
  simp [jsNot, jsTruthy, Field.equals]

/-- `verify` never changes the claimed point or the proof handle. -/
theorem verify_state_fields (w : ZKExactGeoPointCircuitProof) :
    ((w.verify).2.1).claimedZKGeoPoint = w.claimedZKGeoPoint ∧
    ((w.verify).2.1).proof = w.proof := by
  unfold ZKExactGeoPointCircuitProof.verify
  split
  · exact ⟨rfl, rfl⟩
  · cases h : w.verifyUncached with
    | mk r tr => cases r <;> simp

/-- The accessor behaves as a `verify` call followed by a read of the claimed
point: its result is the verification outcome with the claimed point as the
success value, and its state and trace are those of the `verify` call. -/
theorem zkGeoPoint_spec (w : ZKExactGeoPointCircuitProof) :
    (w.zkGeoPoint).1 = Except.map (fun _ => w.claimedZKGeoPoint) (w.verify).1 ∧
    (w.zkGeoPoint).2 = (w.verify).2 := by
  have hfields := verify_state_fields w
  unfold ZKExactGeoPointCircuitProof.zkGeoPoint
  cases h : w.verify with
  | mk r rest =>
    cases rest with
    | mk w2 tr =>
      cases r with
      | ok u =>
        rw [h] at hfields
        simp at hfields
        simp [Except.map, hfields.1]
      | error e => simp [Except.map]

/-- An engine-accepted proof verifies successfully (the claim binder never
rejects, see `assert_ok_lemma`). -/
theorem verify_ok_of_cryptoValid (w : ZKExactGeoPointCircuitProof)
    (h : w.proof.cryptoValid = true) :
    (w.verify).1 = Except.ok () := by
  unfold ZKExactGeoPointCircuitProof.verify ZKExactGeoPointCircuitProof.verifyUncached
  by_cases hc : w.verificationCached = true <;>
    simp [hc, superVerify, h, assert_ok_lemma w]

/-- A successful `verify` leaves the instance with a cached success marker. -/
theorem verify_ok_cached (w : ZKExactGeoPointCircuitProof)
    (h : (w.verify).1 = Except.ok ()) :
    ((w.verify).2.1).verificationCached = true := by
  unfold ZKExactGeoPointCircuitProof.verify at h ⊢
  by_cases hc : w.verificationCached
  · simp [hc]
  · simp only [hc, if_false]
    cases hu : w.verifyUncached with
    | mk r tr =>
      cases r with
      | ok u => simp
      | error e => simp [hc, hu] at h

/-- On an instance with a cached success, the accessor succeeds immediately
with the claimed point, leaves the state unchanged and makes no external call. -/
theorem zkGeoPoint_cached (s : ZKExactGeoPointCircuitProof)
    (h : s.verificationCached = true) :
    s.zkGeoPoint = (Except.ok s.claimedZKGeoPoint, s, []) := by
  unfold ZKExactGeoPointCircuitProof.zkGeoPoint ZKExactGeoPointCircuitProof.verify
  simp [h]

/-- Provider-wrapper verification never changes the claimed point or handle. -/
theorem providerVerify_fields (s : ZKGeoPointProviderCircuitProof) :
    ((s.verify).2).zkGeoPoint = s.zkGeoPoint ∧ ((s.verify).2).zkProof = s.zkProof := by
  unfold ZKGeoPointProviderCircuitProof.verify
  split
  · exact ⟨rfl, rfl⟩
  · split
    · exact ⟨rfl, rfl⟩
    · split
      · exact ⟨rfl, rfl⟩
      · exact ⟨rfl, rfl⟩

/-! ## Claims -/

/-- C1: the `zkGeoPoint` accessor invokes `verify()` before returning — its
state change and external-call trace are exactly those of a `verify()` call —
and it returns the claimed value exactly when `verify()` succeeds, failing with
the same error whenever `verify()` fails, so no caller can read an unverified
claim. -/
theorem zkGeoPoint_accessor_verifies (w : ZKExactGeoPointCircuitProof) :
    (w.zkGeoPoint).1 = Except.map (fun _ => w.claimedZKGeoPoint) (w.verify).1 ∧
    (w.zkGeoPoint).2 = (w.verify).2 :=
  zkGeoPoint_spec w

/-- C2: evaluation of the code at a failing input.  `badWrapper` claims the
point (40, -74) while its proof embeds the commitment 999, which differs from
the hash of the claim; yet `verify()` succeeds, because the claim-binding guard
negates a truthy `Bool` object and never fires — contrary to the claim (and to
the method's own documentation) that a mismatch fails with `ClaimMismatch`. -/
theorem verify_accepts_mismatched_claim :
    badWrapper.proof.publicOutput.geoPointHash ≠ badWrapper.claimedZKGeoPoint.hash ∧
    badWrapper.proof.cryptoValid = true ∧
    (badWrapper.verify).1 = Except.ok () ∧
    badWrapper.assertGeoPointIsTheClaimedOne = Except.ok () :=
  ⟨by decide, rfl, rfl, rfl⟩

/-- C3: when the embedded commitment equals the hash of the claimed value and
the external engine accepts the proof, `verify()` succeeds and the `zkGeoPoint`
accessor returns exactly the claimed value supplied at construction. -/
theorem verify_succeeds_on_valid_pair (w : ZKExactGeoPointCircuitProof)
    (h1 : w.proof.cryptoValid = true)
    (_h2 : w.proof.publicOutput.geoPointHash = w.claimedZKGeoPoint.hash) :
    (w.verify).1 = Except.ok () ∧
    (w.zkGeoPoint).1 = Except.ok w.claimedZKGeoPoint := by
  have hv := verify_ok_of_cryptoValid w h1
  refine ⟨hv, ?_⟩
  have hs := (zkGeoPoint_spec w).1
  rw [hs, hv]
  rfl

/-- Witness for C3 at `goodWrapper`, whose commitment matches its claim and
whose proof the engine accepts. -/
theorem verify_succeeds_on_valid_pair_witness :
    goodWrapper.proof.cryptoValid = true ∧
    goodWrapper.proof.publicOutput.geoPointHash = goodWrapper.claimedZKGeoPoint.hash ∧
    (goodWrapper.verify).1 = Except.ok () ∧
    (goodWrapper.zkGeoPoint).1 = Except.ok goodWrapper.claimedZKGeoPoint :=
  ⟨rfl, by decide, (verify_succeeds_on_valid_pair goodWrapper rfl (by decide)).1,
    (verify_succeeds_on_valid_pair goodWrapper rfl (by decide)).2⟩

/-- C4: the derivation factory `fromZKGeoPointProviderProof` verifies the
source wrapper first (the first step of every derivation trace is the source
verification), and when that verification fails the whole derivation fails with
the same error and the external transformation is never invoked. -/
theorem derivation_verifies_source_first (s : ZKGeoPointProviderCircuitProof) :
    (ZKExactGeoPointCircuitProof.fromZKGeoPointProviderProof s).2.head? =
      some DerivEvent.sourceVerify ∧
    ∀ e : VerificationError, (s.verify).1 = Except.error e →
      (ZKExactGeoPointCircuitProof.fromZKGeoPointProviderProof s).1 = Except.error e ∧
      DerivEvent.externalTransform ∉
        (ZKExactGeoPointCircuitProof.fromZKGeoPointProviderProof s).2 := by
  cases hv : s.verify with
  | mk r s2 =>
    cases r with
    | ok u =>
      constructor
      · simp [ZKExactGeoPointCircuitProof.fromZKGeoPointProviderProof, hv]
      · intro e he
        simp at he
    | error e2 =>
      constructor
      · simp [ZKExactGeoPointCircuitProof.fromZKGeoPointProviderProof, hv]
      · intro e he
        simp at he
        subst he
        simp [ZKExactGeoPointCircuitProof.fromZKGeoPointProviderProof, hv]

/-- Witness for C4 at `badSource`, whose proof the engine rejects: the
derivation fails with the source's error and never reaches the external
transformation. -/
theorem derivation_verifies_source_first_witness :
    (badSource.verify).1 = Except.error VerificationError.cryptographicVerificationFailure ∧
    (ZKExactGeoPointCircuitProof.fromZKGeoPointProviderProof badSource).1 =
      Except.error VerificationError.cryptographicVerificationFailure ∧
    DerivEvent.externalTransform ∉
      (ZKExactGeoPointCircuitProof.fromZKGeoPointProviderProof badSource).2 :=
  ⟨rfl,
    ((derivation_verifies_source_first badSource).2 _ rfl).1,
    ((derivation_verifies_source_first badSource).2 _ rfl).2⟩

/-- C5: a successful derivation returns a wrapper whose claimed value is the
claim carried by the source wrapper, whose proof handle is exactly the result
of the external transformation applied to the source's underlying handle, and
which is unverified (no cached verification; the derivation trace contains only
the source verification and the transformation, no verification of the result). -/
theorem derivation_result_shape (s : ZKGeoPointProviderCircuitProof)
    (w : ZKExactGeoPointCircuitProof)
    (h : (ZKExactGeoPointCircuitProof.fromZKGeoPointProviderProof s).1 = Except.ok w) :
    w.claimedZKGeoPoint = s.zkGeoPoint ∧
    w.proof = ExactGeoPointCircuit.fromGeoPointProvider s.zkProof ∧
    w.verificationCached = false ∧
    (ZKExactGeoPointCircuitProof.fromZKGeoPointProviderProof s).2 =
      [DerivEvent.sourceVerify, DerivEvent.externalTransform] := by
  have hf := providerVerify_fields s
  cases hv : s.verify with
  | mk r s2 =>
    rw [hv] at hf
    simp at hf
    cases r with
    | error e =>
      simp [ZKExactGeoPointCircuitProof.fromZKGeoPointProviderProof, hv] at h
    | ok u =>
      simp [ZKExactGeoPointCircuitProof.fromZKGeoPointProviderProof, hv,
        ZKExactGeoPointCircuitProof.mkNew] at h
      subst h
      simp [ZKExactGeoPointCircuitProof.fromZKGeoPointProviderProof, hv,
        ZKExactGeoPointCircuitProof.mkNew, hf.1, hf.2]

/-- Witness for C5 at `goodSource`: the derivation succeeds and produces
`derivedWrapper`, carrying the source claim, the transformed handle, and no
cached verification. -/
theorem derivation_result_shape_witness :
    (ZKExactGeoPointCircuitProof.fromZKGeoPointProviderProof goodSource).1 =
      Except.ok derivedWrapper ∧
    derivedWrapper.claimedZKGeoPoint = goodSource.zkGeoPoint ∧
    derivedWrapper.proof = ExactGeoPointCircuit.fromGeoPointProvider goodSource.zkProof ∧
    derivedWrapper.verificationCached = false :=
  ⟨rfl,
    (derivation_result_shape goodSource derivedWrapper rfl).1,
    (derivation_result_shape goodSource derivedWrapper rfl).2.1,
    (derivation_result_shape goodSource derivedWrapper rfl).2.2.1⟩

/-- C6: `verify()` performs the external cryptographic check before the
claim-binding check: every possible trace lists the cryptographic check first,
the claim-binding check runs only when the cryptographic check succeeded, and
on an instance with no cached success the first external call is always the
cryptographic check. -/
theorem verify_crypto_before_claim_binding (w : ZKExactGeoPointCircuitProof) :
    ((w.verify).2.2 = [] ∨ (w.verify).2.2 = [VerifyEvent.cryptoCheck] ∨
      (w.verify).2.2 = [VerifyEvent.cryptoCheck, VerifyEvent.claimCheck]) ∧
    (VerifyEvent.claimCheck ∈ (w.verify).2.2 → superVerify w.proof = Except.ok ()) ∧
    (w.verificationCached = false →
      (w.verify).2.2.head? = some VerifyEvent.cryptoCheck) := by
  unfold ZKExactGeoPointCircuitProof.verify ZKExactGeoPointCircuitProof.verifyUncached
  by_cases hc : w.verificationCached = true
  · simp [hc]
  · cases hs : superVerify w.proof with
    | error e => simp [hc, hs]
    | ok u => simp [hc, hs, assert_ok_lemma w]

/-- Witness for C6 at `goodWrapper` (no cached success): the claim-binding
check appears in the trace, the cryptographic check succeeded, and the trace
starts with the cryptographic check. -/
theorem verify_crypto_before_claim_binding_witness :
    VerifyEvent.claimCheck ∈ (goodWrapper.verify).2.2 ∧
    superVerify goodWrapper.proof = Except.ok () ∧
    goodWrapper.verificationCached = false ∧
    (goodWrapper.verify).2.2.head? = some VerifyEvent.cryptoCheck :=
  ⟨by decide, (verify_crypto_before_claim_binding goodWrapper).2.1 (by decide),
    rfl, (verify_crypto_before_claim_binding goodWrapper).2.2 rfl⟩

/-- C7: `verify()` is idempotent: with no state change between the calls, a
second `verify()` yields the same outcome as the first, and after a successful
first call the second one is served from the verification cache, with no
external call at all (empty trace, hence no re-invocation of the cryptographic
check). -/
theorem verify_idempotent (w : ZKExactGeoPointCircuitProof) :
    (((w.verify).2.1).verify).1 = (w.verify).1 ∧
    ((w.verify).1 = Except.ok () → (((w.verify).2.1).verify).2.2 = []) := by
  by_cases hc : w.verificationCached = true
  · simp [ZKExactGeoPointCircuitProof.verify, hc]
  · cases hu : w.verifyUncached with
    | mk r tr =>
      cases r with
      | ok u => simp [ZKExactGeoPointCircuitProof.verify, hc, hu]
      | error e => simp [ZKExactGeoPointCircuitProof.verify, hc, hu]

/-- Witness for C7 at `goodWrapper`: the first call succeeds, the second call
has the same outcome and an empty external-call trace. -/
theorem verify_idempotent_witness :
    (goodWrapper.verify).1 = Except.ok () ∧
    (((goodWrapper.verify).2.1).verify).1 = (goodWrapper.verify).1 ∧
    (((goodWrapper.verify).2.1).verify).2.2 = [] :=
  ⟨rfl, (verify_idempotent goodWrapper).1, (verify_idempotent goodWrapper).2 rfl⟩

/-- One read through the `zkGeoPoint` accessor, keeping only the state. -/
def readStep (s : ZKExactGeoPointCircuitProof) : ZKExactGeoPointCircuitProof :=
  (s.zkGeoPoint).2.1

/-- C8: once `verify()` has succeeded on an instance, every subsequent read
through the `zkGeoPoint` accessor (any number of reads later) succeeds, returns
the same claimed value, changes nothing, and makes no external call; the
claimed value and the proof handle are never mutated. -/
theorem accessor_stable_after_success (w : ZKExactGeoPointCircuitProof)
    (h : (w.verify).1 = Except.ok ()) (n : Nat) :
    ((readStep^[n]) ((w.verify).2.1)).zkGeoPoint =
      (Except.ok w.claimedZKGeoPoint, (w.verify).2.1, []) ∧
    ((readStep^[n]) ((w.verify).2.1)).claimedZKGeoPoint = w.claimedZKGeoPoint ∧
    ((readStep^[n]) ((w.verify).2.1)).proof = w.proof := by
  have hcached := verify_ok_cached w h
  have hfields := verify_state_fields w
  have hget := zkGeoPoint_cached ((w.verify).2.1) hcached
  have hfix : readStep ((w.verify).2.1) = (w.verify).2.1 := by
    simp [readStep, hget]
  have hiter : (readStep^[n]) ((w.verify).2.1) = (w.verify).2.1 :=
    Function.iterate_fixed hfix n
  rw [hiter, hget, hfields.1]
  exact ⟨rfl, rfl, hfields.2⟩

/-- Witness for C8 at `goodWrapper` after three reads. -/
theorem accessor_stable_after_success_witness :
    (goodWrapper.verify).1 = Except.ok () ∧
    ((readStep^[3]) ((goodWrapper.verify).2.1)).zkGeoPoint =
      (Except.ok goodWrapper.claimedZKGeoPoint, (goodWrapper.verify).2.1, []) :=
  ⟨rfl, (accessor_stable_after_success goodWrapper rfl 3).1⟩

/-- C9: the static `fromJSON` reconstructs an opaque proof handle carrying the
serialized public output and engine verdict, and performs no verification: its
trace of verification events is empty, so neither the cryptographic check nor
the claim-binding check runs during deserialization. -/
theorem fromJSON_no_verification (j : JsonProof) :
    (ZKExactGeoPointCircuitProof.fromJSON j).2 = [] ∧
    ((ZKExactGeoPointCircuitProof.fromJSON j).1).publicOutput.geoPointHash =
      j.publicOutputHash ∧
    ((ZKExactGeoPointCircuitProof.fromJSON j).1).cryptoValid = j.cryptoValid :=
  ⟨rfl, rfl, rfl⟩

/-- C10: the claim-binding check `assertGeoPointIsTheClaimedOne` completes
without failing on every instance: its guard applies JavaScript negation to the
`Bool` object returned by `Field.equals`, and since objects are always truthy
the negation is `false` for all inputs, making the mismatch branch unreachable. -/
theorem assertGeoPoint_never_throws (w : ZKExactGeoPointCircuitProof) :
    w.assertGeoPointIsTheClaimedOne = Except.ok () ∧
    ∀ x y : FieldVal, jsNot (Field.equals x y) = false :=
  ⟨assert_ok_lemma w, fun _ _ => rfl⟩
